import Mathlib

/-!
# lbrytv: status endpoint and proxy error taxonomy

A shallow embedding of `internal/status/status.go` (the handlers `GetStatus`
and `WhoAMI` with the package-level status cache) and of
`app/proxy/errors.go` (the JSON-RPC error kinds), followed by theorems about
them.

Conventions of the embedding:

* `time.Time` is an integer count of nanoseconds; `time.Duration` likewise.
* Package-level variables are the fields of `Globals`, passed in and out of a
  handler explicitly.
* Everything a handler reads from outside the process (the clock, the outcome
  of every `http.Get`) is a field of `World`.
* What a handler writes to its `http.ResponseWriter` is returned as a
  `ResponseWriter` value; the body is the Go value handed to
  `json.MarshalIndent`, before serialisation.
-/

namespace Status

/-! ## net/http fragments used by the handlers -/

/-- Go `http.StatusOK`. -/
def httpStatusOK : Int := 200

/-- Go `http.StatusNotFound`. -/
def httpStatusNotFound : Int := 404

/-- Go `http.StatusServiceUnavailable`. -/
def httpStatusServiceUnavailable : Int := 503

/-- What has been written to an `http.ResponseWriter`: the header entries added,
the status line (absent until `WriteHeader` or the first `Write`), and the
bodies written, in order. -/
structure ResponseWriter (β : Type) where
  header : List (String × String)
  status : Option Int
  body : List β

/-- A response writer nothing has been written to. -/
def ResponseWriter.fresh {β : Type} : ResponseWriter β :=
  { header := [], status := none, body := [] }

/-- Go `validHeaderFieldByte`: the ASCII letters and digits and the
punctuation marks allowed in a header field name (given by code point). -/
def validHeaderFieldByte (c : Char) : Bool :=
  c.isAlphanum ||
    [33, 35, 36, 37, 38, 39, 42, 43, 45, 46, 94, 95, 96, 124, 126].contains c.toNat

/-- The rewriting loop of Go `canonicalMIMEHeaderKey`: a letter is made upper
case when `upper` is set and lower case otherwise; `upper` is set at the start
and after each hyphen. -/
def canonicalLoop : Bool → List Char → List Char
  | _, [] => []
  | upper, c :: rest =>
    let c := if upper then c.toUpper else c.toLower
    c :: canonicalLoop (c == (Char.ofNat 45)) rest

/-- Go `textproto.CanonicalMIMEHeaderKey`: a key holding a byte that is not
valid in a header field name is returned unchanged; any other key is put in
canonical form. -/
def CanonicalMIMEHeaderKey (s : String) : String :=
  if s.data.all validHeaderFieldByte then String.mk (canonicalLoop true s.data) else s

/-- Go `w.Header().Add(key, value)`: the value is stored under the canonical
form of the key. -/
def ResponseWriter.HeaderAdd {β : Type} (w : ResponseWriter β) (key value : String) :
    ResponseWriter β :=
  { w with header := w.header ++ [(CanonicalMIMEHeaderKey key, value)] }

/-- Go `w.WriteHeader(code)`: the first call fixes the status line. -/
def ResponseWriter.WriteHeader {β : Type} (w : ResponseWriter β) (code : Int) :
    ResponseWriter β :=
  match w.status with
  | some _ => w
  | none => { w with status := some code }

/-- Go `w.Write(b)`: when `WriteHeader` has not been called yet, `Write` calls
`WriteHeader(http.StatusOK)` first. -/
def ResponseWriter.Write {β : Type} (w : ResponseWriter β) (b : β) : ResponseWriter β :=
  let w1 := w.WriteHeader httpStatusOK
  { w1 with body := w1.body ++ [b] }

/-- Go `http.Header`, a map from canonical header names to their values. -/
abbrev Header := List (String × List String)

/-- Go `Header.Get`: the first value stored under the canonical form of the
key, `""` when there is none. -/
def Header.Get (h : Header) (key : String) : String :=
  match h.lookup (CanonicalMIMEHeaderKey key) with
  | some (v :: _) => v
  | _ => ""

/-! ## The node directory -/

/-- One backend node as listed by the router. -/
structure LbrynetServer where
  Address : String
deriving DecidableEq, Repr

/-- Modelled from the spec: `sdkrouter.Router` is not part of the sources at
hand; the Node Directory "exposes `list_nodes() -> sequence of {address}`;
read-only, assumed cheap and always available". -/
structure Router where
  servers : List LbrynetServer
deriving DecidableEq, Repr

/-- Modelled from the spec: `Router.GetAll`, missing from the sources, returns
the current list of backend nodes and leaves the router as it was; the second
component is the router after the call. -/
def Router.GetAll (r : Router) : List LbrynetServer × Router :=
  (r.servers, r)

/-- Go `*http.Request`, restricted to what the two handlers read: the remote
address, the headers, and the router stored in the request context under
`SDKRouterContextKey`. The context always holds a router here: a request
without one makes the type assertion in `GetStatus` panic before anything is
written, and is left out. -/
structure Request where
  RemoteAddr : String
  Header : Header
  sdkrouter : Router

/-! ## status.go: constants and types -/

/-- Default value of the package variable `PlayerServers`. -/
def PlayerServers : List String :=
  [ "https://player1.lbry.tv",
    "https://player2.lbry.tv",
    "https://player3.lbry.tv",
    "https://player4.lbry.tv",
    "https://player5.lbry.tv" ]

def StatusOK : String := "ok"
def StatusNotReady : String := "not_ready"
def StatusOffline : String := "offline"
def StatusFailing : String := "failing"

/-- Instants and durations, in nanoseconds. -/
abbrev Time := Int

/-- Go `time.Second`. -/
def Second : Int := 1000000000

/-- The constant `statusCacheValidity = 120 * time.Second`. -/
def statusCacheValidity : Int := 120 * Second

/-- Go `t.Add(d)`. -/
def Time.Add (t : Time) (d : Int) : Time := t + d

/-- Go `t.After(u)`: `t` is strictly later than `u`. -/
def Time.After (t u : Time) : Bool := decide (u < t)

structure ServerItem where
  Address : String
  Status : String
  /-- The JSON field `error,omitempty`: the empty string is left out. -/
  Error : String
deriving DecidableEq, Repr

abbrev ServerList := List ServerItem

/-- The `services` map of a response; its two keys are fixed by `GetStatus`. -/
structure Services where
  lbrynet : ServerList
  player : ServerList
deriving DecidableEq, Repr

/-- The map `statusResponse`, with the three keys `GetStatus` stores in it. -/
structure statusResponse where
  timestamp : String
  services : Services
  general_state : String
deriving DecidableEq, Repr

/-- The package-level variables of `status`. -/
structure Globals where
  PlayerServers : List String
  cachedResponse : Option statusResponse
  lastUpdate : Time

/-- The package state at start-up: default servers, empty cache, zero time. -/
def Globals.init : Globals :=
  { PlayerServers := Status.PlayerServers, cachedResponse := none, lastUpdate := 0 }

/-- What `http.Get` returns: a transport error (with its `Error()` text) or a
response with a status code. -/
inductive ProbeOutcome where
  | err (text : String)
  | resp (StatusCode : Int)
deriving DecidableEq, Repr

/-- The environment of one `GetStatus` call. -/
structure World where
  /-- Reading of `time.Now()` in the freshness test. -/
  nowCheck : Time
  /-- Reading of `time.Now()` for the `timestamp` entry. -/
  nowStamp : Time
  /-- Reading of `time.Now()` stored into `lastUpdate`. -/
  nowEnd : Time
  /-- The text `fmt.Sprintf("%v", t.UTC())` of an instant. -/
  utcString : Time → String
  /-- Outcome of the `i`-th `http.Get` of the cycle, counted from `0`. -/
  httpGet : Nat → ProbeOutcome

/-- Go `fmt.Sprintf("%v", n)` for an `int`. -/
def fmtInt (n : Int) : String := toString n

/-! ## status.go: GetStatus -/

/-- The local variables of the recompute branch that its loops update, and
the log of URLs passed to `http.Get`. -/
structure LoopState where
  services : Services
  respStatus : Int
  failureDetected : Bool
  probed : List String

/-- Body of `for _, s := range sdks`. -/
def sdkStep (services : Services) (s : LbrynetServer) : Services :=
  let srv : ServerItem := { Address := s.Address, Status := StatusOK, Error := "" }
  { services with lbrynet := services.lbrynet ++ [srv] }

/-- Body of `for _, ps := range PlayerServers`, given what `http.Get(ps)`
returned. -/
def playerStep (ps : String) (o : ProbeOutcome) (st : LoopState) : LoopState :=
  let srv : ServerItem := { Address := ps, Status := StatusOK, Error := "" }
  let st := { st with probed := st.probed ++ [ps] }
  match o with
  | .err e =>
    let srv := { srv with Error := e, Status := StatusOffline }
    { st with
      respStatus := httpStatusServiceUnavailable
      failureDetected := true
      services := { st.services with player := st.services.player ++ [srv] } }
  | .resp code =>
    if code ≠ httpStatusNotFound then
      let srv := { srv with Status := StatusNotReady, Error := "http status " ++ fmtInt code }
      { st with
        respStatus := httpStatusServiceUnavailable
        failureDetected := true
        services := { st.services with player := st.services.player ++ [srv] } }
    else
      { st with services := { st.services with player := st.services.player ++ [srv] } }

/-- The loop `for _, ps := range PlayerServers`; `i` counts the probes made so
far in this cycle. -/
def playerLoop (httpGet : Nat → ProbeOutcome) : List String → Nat → LoopState → LoopState
  | [], _, st => st
  | ps :: rest, i, st => playerLoop httpGet rest (i + 1) (playerStep ps (httpGet i) st)

/-- Everything one call of `GetStatus` does: what it wrote to the response
writer, the URLs it probed, the package variables and the router afterwards. -/
structure StatusResult where
  w : ResponseWriter statusResponse
  probed : List String
  globals : Globals
  router : Router

/-- Lines 91-94: header, status line, body. -/
def writeStatus (respStatus : Int) (response : statusResponse) :
    ResponseWriter statusResponse :=
  ((ResponseWriter.fresh.HeaderAdd "content-type" "application/json; charset=utf-8").WriteHeader
    respStatus).Write response

/-- The else branch of `GetStatus` (lines 52-89). -/
def recompute (g : Globals) (req : Request) (world : World) : StatusResult :=
  let respStatus := httpStatusOK
  let services : Services := { lbrynet := [], player := [] }
  let timestamp := world.utcString world.nowStamp
  let failureDetected := false
  let (sdks, router) := req.sdkrouter.GetAll
  let services := sdks.foldl sdkStep services
  let st := playerLoop world.httpGet g.PlayerServers 0
    { services := services, respStatus := respStatus,
      failureDetected := failureDetected, probed := [] }
  let response : statusResponse :=
    { timestamp := timestamp
      services := st.services
      general_state := if st.failureDetected then StatusFailing else StatusOK }
  { w := writeStatus st.respStatus response
    probed := st.probed
    globals := { g with cachedResponse := some response, lastUpdate := world.nowEnd }
    router := router }

/-- The handler `GetStatus`. -/
def GetStatus (g : Globals) (req : Request) (world : World) : StatusResult :=
  let respStatus := httpStatusOK
  match g.cachedResponse with
  | some cached =>
    if g.lastUpdate.After (world.nowCheck.Add statusCacheValidity) then
      { w := writeStatus respStatus cached, probed := [], globals := g, router := req.sdkrouter }
    else
      recompute g req world
  | none => recompute g req world

/-! ## status.go: WhoAMI -/

/-- Everything one call of `WhoAMI` does. -/
structure WhoResult where
  w : ResponseWriter (List (String × String))
  globals : Globals

/-- The handler `WhoAMI`; the body is the map `details`. -/
def WhoAMI (g : Globals) (req : Request) : WhoResult :=
  let details : List (String × String) :=
    [ ("ip", req.RemoteAddr),
      ("X-Forwarded-For", req.Header.Get "X-Forwarded-For"),
      ("X-Real-Ip", req.Header.Get "X-Real-Ip") ]
  { w := (ResponseWriter.fresh.HeaderAdd "content-type" "application/json; charset=utf-8").Write
      details
    globals := g }

/-! ## Closed forms of the loops, used by the proofs -/

/-- The observation `playerStep` appends for one server and one probe outcome. -/
def probeItem (ps : String) (o : ProbeOutcome) : ServerItem :=
  match o with
  | .err e => { Address := ps, Status := StatusOffline, Error := e }
  | .resp code =>
    if code ≠ httpStatusNotFound then
      { Address := ps, Status := StatusNotReady, Error := "http status " ++ fmtInt code }
    else
      { Address := ps, Status := StatusOK, Error := "" }

/-- Whether `playerStep` raises `failureDetected` for a probe outcome. -/
def probeBad (o : ProbeOutcome) : Bool :=
  match o with
  | .err _ => true
  | .resp code => decide (code ≠ httpStatusNotFound)

/-- The observations of a list of servers whose first probe is number `i`. -/
def observations (httpGet : Nat → ProbeOutcome) : List String → Nat → ServerList
  | [], _ => []
  | ps :: rest, i => probeItem ps (httpGet i) :: observations httpGet rest (i + 1)

/-- Whether some probe of the list, the first being number `i`, is bad. -/
def anyBad (httpGet : Nat → ProbeOutcome) : List String → Nat → Bool
  | [], _ => false
  | _ :: rest, i => probeBad (httpGet i) || anyBad httpGet rest (i + 1)

/-- The observation reported for a listed backend node. -/
def nodeItem (s : LbrynetServer) : ServerItem :=
  { Address := s.Address, Status := StatusOK, Error := "" }

/-- The guard of line 49: a snapshot is cached and `lastUpdate` is after
`time.Now().Add(statusCacheValidity)`. -/
def cacheHit (g : Globals) (world : World) : Bool :=
  g.cachedResponse.isSome && g.lastUpdate.After (world.nowCheck.Add statusCacheValidity)

/-- The snapshot a recompute builds, in closed form. -/
def freshSnapshot (g : Globals) (req : Request) (world : World) : statusResponse :=
  { timestamp := world.utcString world.nowStamp
    services :=
      { lbrynet := req.sdkrouter.servers.map nodeItem
        player := observations world.httpGet g.PlayerServers 0 }
    general_state := if anyBad world.httpGet g.PlayerServers 0 then StatusFailing else StatusOK }

end Status

namespace Proxy

/-! ## errors.go -/

/-- ErrProxy is for general errors that originate inside the proxy module. -/
def ErrProxy : Int := -32080

/-- ErrInternal is a general server error code. -/
def ErrInternal : Int := -32603

/-- ErrAuthFailed is when supplied auth_token / account_id is not present in the database. -/
def ErrAuthFailed : Int := -32085

/-- ErrJSONParse means invalid JSON was received by the server. -/
def ErrJSONParse : Int := -32700

/-- ErrInvalidParams signifies a client-supplied params error. -/
def ErrInvalidParams : Int := -32602

/-- ErrInvalidRequest signifies a general client error. -/
def ErrInvalidRequest : Int := -32600

/-- ErrMethodUnavailable means the client-requested method cannot be found. -/
def ErrMethodUnavailable : Int := -32601

/-- A non-nil Go `error` value, reduced to what its `Error()` method returns. -/
structure GoError where
  text : String
deriving DecidableEq, Repr

/-- The method `Error()` of a Go `error`. -/
def GoError.Error (e : GoError) : String := e.text

/-- Modelled from the spec: `jsonrpc.RPCError` comes from a library outside the
sources; the envelope's error object is `{"code": int, "message": str}`. -/
structure RPCError where
  Code : Int
  Message : String
deriving DecidableEq, Repr

/-- Modelled from the spec: `jsonrpc.RPCResponse` comes from a library outside
the sources; the envelope is `{"error": {...}, "jsonrpc": "2.0"}`, the error
being a pointer that may be nil. -/
structure RPCResponse where
  JSONRPC : String
  Error : Option RPCError
deriving DecidableEq, Repr

structure GenericError where
  err : GoError
  code : Int
deriving DecidableEq, Repr

/-- InputError is a client JSON parsing error; it embeds `GenericError`. -/
structure InputError extends GenericError
deriving DecidableEq, Repr

/-- AuthFailed is for authentication failures when jsonrpc client has provided a token. -/
structure AuthFailed where
  err : GoError
deriving DecidableEq, Repr

def GenericError.Error (e : GenericError) : String := e.err.Error

/-- Code returns JSON-RPC error code. -/
def GenericError.Code (e : GenericError) : Int := e.code

def GenericError.Unwrap (e : GenericError) : GoError := e.err

/-- AsRPCResponse returns error as jsonrpc.RPCResponse. -/
def GenericError.AsRPCResponse (e : GenericError) : RPCResponse :=
  { Error := some { Code := e.Code, Message := e.Error }
    JSONRPC := "2.0" }

/-- NewError is for general internal errors. -/
def NewError (e : GoError) : GenericError := { err := e, code := ErrInternal }

/-- NewInputError is for client JSON parsing errors. -/
def NewInputError (e : GoError) : InputError := { err := e, code := ErrJSONParse }

/-- NewMethodError creates a call method error. -/
def NewMethodError (e : GoError) : GenericError := { err := e, code := ErrMethodUnavailable }

/-- NewParamsError signifies an error in method parameters. -/
def NewParamsError (e : GoError) : GenericError := { err := e, code := ErrInvalidParams }

/-- NewInternalError is for SDK-related errors (connection problems etc). -/
def NewInternalError (e : GoError) : GenericError := { err := e, code := ErrInternal }

def AuthFailed.Error (_e : AuthFailed) : String := "couldn't find account for in lbrynet"

/-- Code returns JSON-RPC error code. -/
def AuthFailed.Code (_e : AuthFailed) : Int := ErrAuthFailed

/-- Code returns JSON-RPC error code; this method of `InputError` shadows the
one promoted from the embedded `GenericError`. -/
def InputError.Code (_e : InputError) : Int := ErrJSONParse

/-- The method `Error()` of `InputError`, promoted from the embedded
`GenericError`. -/
def InputError.Error (e : InputError) : String := e.toGenericError.Error

/-- The method `AsRPCResponse()` of `InputError`, promoted from the embedded
`GenericError`: it runs with the embedded value as receiver, so the `Code()` it
calls is `GenericError.Code`. -/
def InputError.AsRPCResponse (e : InputError) : RPCResponse :=
  e.toGenericError.AsRPCResponse

end Proxy

namespace Status

/-! ## Runs of the status handler -/

/-- The package variables after `GetStatus` has served the given calls, one
after the other. -/
def serveAll (g : Globals) : List (Request × World) → Globals
  | [] => g
  | (req, world) :: rest => serveAll (GetStatus g req world).globals rest

/-- The clock never runs backwards over a sequence of calls: the three
readings of each call are in order, the first call starts no earlier than `t`,
and every later call starts no earlier than the previous one ended. -/
def clockOrdered : Time → List (Request × World) → Bool
  | _, [] => true
  | t, (_, world) :: rest =>
    decide (t ≤ world.nowCheck) && decide (world.nowCheck ≤ world.nowStamp) &&
      decide (world.nowStamp ≤ world.nowEnd) && clockOrdered world.nowEnd rest

/-! ## Concrete requests and environments -/

/-- A request from `10.0.0.7:4431` with one forwarding header, whose router
lists two nodes. -/
def demoRequest : Request :=
  { RemoteAddr := "10.0.0.7:4431"
    Header := [("X-Forwarded-For", ["1.2.3.4", "5.6.7.8"]), ("Accept", ["*/*"])]
    sdkrouter := { servers := [{ Address := "http://sdk1:5279" }, { Address := "http://sdk2:5279" }] } }

/-- Every clock reading is `t`; every media server answers 404. -/
def healthyWorld (t : Time) : World :=
  { nowCheck := t, nowStamp := t, nowEnd := t, utcString := fmtInt
    httpGet := fun _ => ProbeOutcome.resp 404 }

/-- Every clock reading is `t`; the second media server times out and the
fourth answers 200. -/
def degradedWorld (t : Time) : World :=
  { nowCheck := t, nowStamp := t, nowEnd := t, utcString := fmtInt
    httpGet := fun i =>
      if i = 1 then ProbeOutcome.err "Get https://player2.lbry.tv: dial tcp: i/o timeout"
      else if i = 3 then ProbeOutcome.resp 200
      else ProbeOutcome.resp 404 }

end Status

namespace Status

/-! ## Lemmas on the loops -/

theorem playerStep_eq (ps : String) (o : ProbeOutcome) (st : LoopState) :
    playerStep ps o st =
      { services :=
          { lbrynet := st.services.lbrynet
            player := st.services.player ++ [probeItem ps o] }
        respStatus := if probeBad o then httpStatusServiceUnavailable else st.respStatus
        failureDetected := st.failureDetected || probeBad o
        probed := st.probed ++ [ps] } := by
  cases o with
  | err e => simp [playerStep, probeItem, probeBad]
  | resp code =>
    by_cases h : code = httpStatusNotFound
    · simp [playerStep, probeItem, probeBad, h]
    · simp [playerStep, probeItem, probeBad, h]

theorem playerLoop_eq (httpGet : Nat → ProbeOutcome) (l : List String) :
    ∀ (i : Nat) (st : LoopState),
      playerLoop httpGet l i st =
        { services :=
            { lbrynet := st.services.lbrynet
              player := st.services.player ++ observations httpGet l i }
          respStatus :=
            if anyBad httpGet l i then httpStatusServiceUnavailable else st.respStatus
          failureDetected := st.failureDetected || anyBad httpGet l i
          probed := st.probed ++ l } := by
  induction l with
  | nil => intro i st; simp [playerLoop, observations, anyBad]
  | cons ps rest ih =>
    intro i st
    rw [playerLoop, ih, playerStep_eq]
    cases hb : probeBad (httpGet i) <;> simp [observations, anyBad, hb]

theorem sdkLoop_eq (l : List LbrynetServer) :
    ∀ services : Services,
      l.foldl sdkStep services =
        { lbrynet := services.lbrynet ++ l.map nodeItem, player := services.player } := by
  induction l with
  | nil => intro services; simp
  | cons s rest ih =>
    intro services
    rw [List.foldl_cons, ih]
    simp [sdkStep, nodeItem]

theorem writeStatus_eq (respStatus : Int) (response : statusResponse) :
    writeStatus respStatus response =
      { header := [("Content-Type", "application/json; charset=utf-8")]
        status := some respStatus
        body := [response] } := by
  have hk : CanonicalMIMEHeaderKey "content-type" = "Content-Type" := by decide
  simp [writeStatus, ResponseWriter.Write, ResponseWriter.WriteHeader, ResponseWriter.HeaderAdd,
    ResponseWriter.fresh, hk]

theorem recompute_eq (g : Globals) (req : Request) (world : World) :
    recompute g req world =
      { w := writeStatus
          (if anyBad world.httpGet g.PlayerServers 0 then httpStatusServiceUnavailable
            else httpStatusOK)
          (freshSnapshot g req world)
        probed := g.PlayerServers
        globals :=
          { PlayerServers := g.PlayerServers
            cachedResponse := some (freshSnapshot g req world)
            lastUpdate := world.nowEnd }
        router := req.sdkrouter } := by
  simp [recompute, Router.GetAll, playerLoop_eq, sdkLoop_eq, freshSnapshot]

theorem GetStatus_miss (g : Globals) (req : Request) (world : World)
    (h : cacheHit g world = false) : GetStatus g req world = recompute g req world := by
  unfold GetStatus
  cases hc : g.cachedResponse with
  | none => rfl
  | some c =>
    simp [cacheHit, hc] at h
    simp [h]

theorem GetStatus_hit (g : Globals) (req : Request) (world : World)
    (h : cacheHit g world = true) :
    ∃ cached, g.cachedResponse = some cached ∧
      GetStatus g req world =
        { w := writeStatus httpStatusOK cached, probed := [], globals := g,
          router := req.sdkrouter } := by
  unfold GetStatus
  cases hc : g.cachedResponse with
  | none => simp [cacheHit, hc] at h
  | some c =>
    simp [cacheHit, hc] at h
    exact ⟨c, rfl, by simp [h]⟩

end Status

namespace Status

/-! ## Lemmas on the closed forms -/

theorem probeItem_bad_iff (ps : String) (o : ProbeOutcome) :
    (probeItem ps o).Status ≠ StatusOK ↔ probeBad o = true := by
  cases o with
  | err e => simp [probeItem, probeBad, StatusOffline, StatusOK]
  | resp code =>
    by_cases h : code = httpStatusNotFound
    · simp [probeItem, probeBad, h]
    · simp [probeItem, probeBad, h, StatusNotReady, StatusOK]

theorem probeItem_address (ps : String) (o : ProbeOutcome) : (probeItem ps o).Address = ps := by
  cases o with
  | err e => rfl
  | resp code =>
    by_cases h : code = httpStatusNotFound
    · simp [probeItem, h]
    · simp [probeItem, h]

theorem observations_address (httpGet : Nat → ProbeOutcome) (l : List String) :
    ∀ i, (observations httpGet l i).map (fun o => o.Address) = l := by
  induction l with
  | nil => intro i; rfl
  | cons ps rest ih => intro i; simp [observations, ih, probeItem_address]

theorem observations_length (httpGet : Nat → ProbeOutcome) (l : List String) :
    ∀ i, (observations httpGet l i).length = l.length := by
  induction l with
  | nil => intro i; rfl
  | cons ps rest ih => intro i; simp [observations, ih]

theorem observations_getElem? (httpGet : Nat → ProbeOutcome) (l : List String) :
    ∀ i k, (observations httpGet l i)[k]? =
      (l[k]?).map (fun ps => probeItem ps (httpGet (i + k))) := by
  induction l with
  | nil => intro i k; simp [observations]
  | cons ps rest ih =>
    intro i k
    cases k with
    | zero => simp [observations]
    | succ k => simp [observations, ih, Nat.add_assoc, Nat.add_comm 1 k]

theorem anyBad_iff (httpGet : Nat → ProbeOutcome) (l : List String) :
    ∀ i, anyBad httpGet l i = true ↔
      ∃ o, o ∈ observations httpGet l i ∧ o.Status ≠ StatusOK := by
  induction l with
  | nil => intro i; simp [anyBad, observations]
  | cons ps rest ih =>
    intro i
    simp only [anyBad, observations, Bool.or_eq_true, ih, List.mem_cons]
    constructor
    · rintro (h | ⟨o, ho, hs⟩)
      · exact ⟨_, Or.inl rfl, (probeItem_bad_iff ps _).2 h⟩
      · exact ⟨o, Or.inr ho, hs⟩
    · rintro ⟨o, rfl | ho, hs⟩
      · exact Or.inl ((probeItem_bad_iff ps _).1 hs)
      · exact Or.inr ⟨o, ho, hs⟩

theorem observations_congr (h1 h2 : Nat → ProbeOutcome) (l : List String) :
    ∀ i, (∀ k, k < l.length → h2 (i + k) = h1 (i + k)) →
      observations h2 l i = observations h1 l i := by
  induction l with
  | nil => intro i _; rfl
  | cons ps rest ih =>
    intro i hk
    have h0 := hk 0 (by simp)
    simp only [Nat.add_zero] at h0
    simp only [observations, h0]
    congr 1
    apply ih
    intro k hlt
    have := hk (k + 1) (by simpa using hlt)
    simpa [Nat.add_assoc, Nat.add_comm 1 k] using this

theorem anyBad_congr (h1 h2 : Nat → ProbeOutcome) (l : List String) :
    ∀ i, (∀ k, k < l.length → h2 (i + k) = h1 (i + k)) →
      anyBad h2 l i = anyBad h1 l i := by
  induction l with
  | nil => intro i _; rfl
  | cons ps rest ih =>
    intro i hk
    have h0 := hk 0 (by simp)
    simp only [Nat.add_zero] at h0
    simp only [anyBad, h0]
    congr 1
    apply ih
    intro k hlt
    have := hk (k + 1) (by simpa using hlt)
    simpa [Nat.add_assoc, Nat.add_comm 1 k] using this

theorem nodeItem_ok (l : List LbrynetServer) (o : ServerItem) (h : o ∈ l.map nodeItem) :
    o.Status = StatusOK := by
  obtain ⟨s, _, rfl⟩ := List.mem_map.1 h
  rfl

/-- The body written by a call that takes the recompute branch. -/
theorem GetStatus_miss_body (g : Globals) (req : Request) (world : World)
    (h : cacheHit g world = false) :
    (GetStatus g req world).w.body = [freshSnapshot g req world] := by
  rw [GetStatus_miss g req world h, recompute_eq, writeStatus_eq]

end Status

namespace Status

/-! ## The status code and the cache window -/

/-- On the recompute branch the status line agrees with the body: 200 exactly
when `general_state` is "ok", 503 exactly when it is "failing". -/
theorem recompute_status_agrees (g : Globals) (req : Request) (world : World) :
    ((recompute g req world).w.status = some 200 ↔
      (recompute g req world).w.body.map (fun s => s.general_state) = [StatusOK]) ∧
    ((recompute g req world).w.status = some 503 ↔
      (recompute g req world).w.body.map (fun s => s.general_state) = [StatusFailing]) := by
  rw [recompute_eq, writeStatus_eq]
  cases hb : anyBad world.httpGet g.PlayerServers 0 <;>
    simp [freshSnapshot, hb, httpStatusOK, httpStatusServiceUnavailable, StatusOK, StatusFailing]

/-- The cache-hit path does not derive the status line from the snapshot it
serves. It takes a clock that runs backwards to get there: after a first
request at reading 1000 s that finds two media servers unhealthy (503,
"failing"), a second request whose reading is 0 s, more than 120 seconds before
the stored `lastUpdate`, is served the cached "failing" snapshot with status
200 and without any probe. No run with a clock that never runs backwards
reaches this path. -/
theorem cache_hit_keeps_initial_status :
    (GetStatus Globals.init demoRequest (degradedWorld (1000 * Second))).w.status = some 503 ∧
    (GetStatus Globals.init demoRequest (degradedWorld (1000 * Second))).w.body.map
      (fun s => s.general_state) = ["failing"] ∧
    (GetStatus (GetStatus Globals.init demoRequest (degradedWorld (1000 * Second))).globals
      demoRequest (healthyWorld 0)).w.status = some 200 ∧
    (GetStatus (GetStatus Globals.init demoRequest (degradedWorld (1000 * Second))).globals
      demoRequest (healthyWorld 0)).w.body.map (fun s => s.general_state) = ["failing"] ∧
    (GetStatus (GetStatus Globals.init demoRequest (degradedWorld (1000 * Second))).globals
      demoRequest (healthyWorld 0)).probed = [] := by
  decide

/-- C2 (the code departs from it): a snapshot is computed and stored at time 0;
a request 60 seconds later, inside the 120 second window, is not served from
the cache: all five media servers are probed again, the body carries a new
timestamp, and `lastUpdate` moves to the new reading. -/
theorem request_inside_window_recomputes :
    (GetStatus Globals.init demoRequest (healthyWorld 0)).globals.lastUpdate = 0 ∧
    (GetStatus Globals.init demoRequest (healthyWorld 0)).globals.cachedResponse.map
      (fun s => s.timestamp) = some "0" ∧
    (0 : Int) ≤ 60 * Second - 0 ∧ 60 * Second - 0 < statusCacheValidity ∧
    (GetStatus (GetStatus Globals.init demoRequest (healthyWorld 0)).globals
      demoRequest (healthyWorld (60 * Second))).probed = PlayerServers ∧
    (GetStatus (GetStatus Globals.init demoRequest (healthyWorld 0)).globals
      demoRequest (healthyWorld (60 * Second))).w.body.map (fun s => s.timestamp)
        = ["60000000000"] ∧
    (GetStatus (GetStatus Globals.init demoRequest (healthyWorld 0)).globals
      demoRequest (healthyWorld (60 * Second))).globals.lastUpdate = 60 * Second := by
  decide

/-- C3: in every snapshot built by the recompute branch of `GetStatus`,
`general_state` is "failing" exactly when some observation of the "lbrynet" or
the "player" group has a status other than "ok", and it is "ok" otherwise. -/
theorem general_state_failing_iff (g : Globals) (req : Request) (world : World)
    (h : cacheHit g world = false) :
    ∃ snap, (GetStatus g req world).w.body = [snap] ∧
      (snap.general_state = StatusFailing ↔
        ∃ o, (o ∈ snap.services.lbrynet ∨ o ∈ snap.services.player) ∧ o.Status ≠ StatusOK) ∧
      ((¬ ∃ o, (o ∈ snap.services.lbrynet ∨ o ∈ snap.services.player) ∧ o.Status ≠ StatusOK) →
        snap.general_state = StatusOK) := by
  refine ⟨freshSnapshot g req world, GetStatus_miss_body g req world h, ?_, ?_⟩
  · cases hb : anyBad world.httpGet g.PlayerServers 0 with
    | true =>
      obtain ⟨o, ho, hs⟩ := (anyBad_iff world.httpGet g.PlayerServers 0).1 hb
      simp only [freshSnapshot, hb, if_true, true_iff]
      exact ⟨o, Or.inr ho, hs⟩
    | false =>
      simp only [freshSnapshot, hb]
      constructor
      · intro hf
        exact absurd hf (by decide)
      · rintro ⟨o, ho | ho, hs⟩
        · exact absurd (nodeItem_ok _ o ho) hs
        · have := (anyBad_iff world.httpGet g.PlayerServers 0).2 ⟨o, ho, hs⟩
          rw [hb] at this
          exact absurd this (by decide)
  · intro hno
    cases hb : anyBad world.httpGet g.PlayerServers 0 with
    | true =>
      obtain ⟨o, ho, hs⟩ := (anyBad_iff world.httpGet g.PlayerServers 0).1 hb
      exact absurd ⟨o, Or.inr ho, hs⟩ hno
    | false => simp [freshSnapshot, hb]

theorem general_state_failing_iff_witness :
    ∃ snap, (GetStatus Globals.init demoRequest (degradedWorld 5)).w.body = [snap] ∧
      (snap.general_state = StatusFailing ↔
        ∃ o, (o ∈ snap.services.lbrynet ∨ o ∈ snap.services.player) ∧ o.Status ≠ StatusOK) ∧
      ((¬ ∃ o, (o ∈ snap.services.lbrynet ∨ o ∈ snap.services.player) ∧ o.Status ≠ StatusOK) →
        snap.general_state = StatusOK) :=
  general_state_failing_iff Globals.init demoRequest (degradedWorld 5) (by decide)

end Status

namespace Status

/-! ## Probe classification and grouping -/

/-- C4: in a recompute, the observation of the `i`-th media server is
"offline" with the transport error's text when its probe failed in transport,
"not_ready" with the text "http status <code>" (which contains the code) when
the response code is not 404, and "ok" with an empty `Error` when the code is
404; so a non-empty `Error` only comes with a status other than "ok". -/
theorem player_probe_classification (g : Globals) (req : Request) (world : World)
    (i : Nat) (ps : String) (h : cacheHit g world = false)
    (hi : g.PlayerServers[i]? = some ps) :
    ∃ snap o, (GetStatus g req world).w.body = [snap] ∧ snap.services.player[i]? = some o ∧
      o.Address = ps ∧
      (∀ text, world.httpGet i = ProbeOutcome.err text →
        o.Status = StatusOffline ∧ o.Error = text) ∧
      (∀ code, world.httpGet i = ProbeOutcome.resp code → code ≠ 404 →
        o.Status = StatusNotReady ∧ o.Error = "http status " ++ fmtInt code ∧
          (fmtInt code).data <:+: o.Error.data) ∧
      (world.httpGet i = ProbeOutcome.resp 404 → o.Status = StatusOK ∧ o.Error = "") ∧
      (o.Error ≠ "" → o.Status ≠ StatusOK) := by
  refine ⟨freshSnapshot g req world, probeItem ps (world.httpGet i),
    GetStatus_miss_body g req world h, ?_, ?_, ?_, ?_, ?_, ?_⟩
  · simp [freshSnapshot, observations_getElem?, hi]
  · exact probeItem_address ps (world.httpGet i)
  · intro text ht
    rw [ht]
    exact ⟨rfl, rfl⟩
  · intro code hc hne
    rw [hc]
    have hne2 : code ≠ httpStatusNotFound := hne
    have hp : probeItem ps (ProbeOutcome.resp code) =
        { Address := ps, Status := StatusNotReady, Error := "http status " ++ fmtInt code } := by
      simp [probeItem, hne2]
    rw [hp]
    refine ⟨rfl, rfl, ?_⟩
    show (fmtInt code).data <:+: ("http status " ++ fmtInt code).data
    rw [String.data_append]
    exact (List.suffix_append _ _).isInfix
  · intro hc
    rw [hc]
    simp [probeItem, httpStatusNotFound]
  · intro hne
    cases ho : world.httpGet i with
    | err e => simp [probeItem, StatusOffline, StatusOK]
    | resp code =>
      by_cases hc : code = httpStatusNotFound
      · rw [ho] at hne
        simp [probeItem, hc] at hne
      · simp [probeItem, hc, StatusNotReady, StatusOK]

theorem player_probe_classification_witness :
    ∃ snap o, (GetStatus Globals.init demoRequest (degradedWorld 5)).w.body = [snap] ∧
      snap.services.player[3]? = some o ∧
      o.Address = "https://player4.lbry.tv" ∧
      (∀ text, (degradedWorld 5).httpGet 3 = ProbeOutcome.err text →
        o.Status = StatusOffline ∧ o.Error = text) ∧
      (∀ code, (degradedWorld 5).httpGet 3 = ProbeOutcome.resp code → code ≠ 404 →
        o.Status = StatusNotReady ∧ o.Error = "http status " ++ fmtInt code ∧
          (fmtInt code).data <:+: o.Error.data) ∧
      ((degradedWorld 5).httpGet 3 = ProbeOutcome.resp 404 →
        o.Status = StatusOK ∧ o.Error = "") ∧
      (o.Error ≠ "" → o.Status ≠ StatusOK) :=
  player_probe_classification Globals.init demoRequest (degradedWorld 5) 3
    "https://player4.lbry.tv" (by decide) (by decide)

end Status

namespace Status

theorem cacheHit_false_of_none (g : Globals) (world : World) (h : g.cachedResponse = none) :
    cacheHit g world = false := by
  simp [cacheHit, h]

theorem cacheHit_false_of_le (g : Globals) (world : World)
    (h : g.lastUpdate ≤ world.nowCheck + statusCacheValidity) : cacheHit g world = false := by
  have : ¬ (world.nowCheck + statusCacheValidity < g.lastUpdate) := not_lt.2 h
  simp [cacheHit, Time.After, Time.Add, this]

theorem cacheHit_true_iff (g : Globals) (world : World) :
    cacheHit g world = true ↔
      (∃ cached, g.cachedResponse = some cached) ∧
        world.nowCheck + 120 * Second < g.lastUpdate := by
  cases hc : g.cachedResponse <;>
    simp [cacheHit, Time.After, Time.Add, statusCacheValidity, hc]

/-- C5: when no snapshot is cached, or the request time is at least 120
seconds past `lastUpdate`, `GetStatus` probes every configured media server
once, in order, answers with the freshly built snapshot (stamped with the
clock reading taken for it), stores exactly that snapshot in the cache slot and
sets `lastUpdate` to the reading taken at the end of the cycle. -/
theorem recompute_on_miss_or_expiry (g : Globals) (req : Request) (world : World)
    (h : g.cachedResponse = none ∨ statusCacheValidity ≤ world.nowCheck - g.lastUpdate) :
    ∃ snap, (GetStatus g req world).w.body = [snap] ∧
      snap = freshSnapshot g req world ∧
      snap.timestamp = world.utcString world.nowStamp ∧
      (GetStatus g req world).probed = g.PlayerServers ∧
      snap.services.player.length = g.PlayerServers.length ∧
      (GetStatus g req world).globals.cachedResponse = some snap ∧
      (GetStatus g req world).globals.lastUpdate = world.nowEnd ∧
      (GetStatus g req world).globals.PlayerServers = g.PlayerServers := by
  have hmiss : cacheHit g world = false := by
    rcases h with h | h
    · exact cacheHit_false_of_none g world h
    · apply cacheHit_false_of_le
      have hv : (0 : Int) ≤ statusCacheValidity := by decide
      have h1 : (statusCacheValidity : Int) ≤ (world.nowCheck : Int) - (g.lastUpdate : Int) := h
      show (g.lastUpdate : Int) ≤ (world.nowCheck : Int) + statusCacheValidity
      linarith
  refine ⟨freshSnapshot g req world, GetStatus_miss_body g req world hmiss, rfl, rfl, ?_, ?_,
    ?_, ?_, ?_⟩
  · rw [GetStatus_miss g req world hmiss, recompute_eq]
  · simp [freshSnapshot, observations_length]
  · rw [GetStatus_miss g req world hmiss, recompute_eq]
  · rw [GetStatus_miss g req world hmiss, recompute_eq]
  · rw [GetStatus_miss g req world hmiss, recompute_eq]

theorem recompute_on_miss_or_expiry_witness :
    ∃ snap,
      (GetStatus (GetStatus Globals.init demoRequest (degradedWorld 0)).globals demoRequest
        (healthyWorld (120 * Second))).w.body = [snap] ∧
      snap.general_state = "ok" ∧ snap.timestamp = "120000000000" ∧
      (GetStatus (GetStatus Globals.init demoRequest (degradedWorld 0)).globals demoRequest
        (healthyWorld (120 * Second))).globals.cachedResponse = some snap :=
  (recompute_on_miss_or_expiry (GetStatus Globals.init demoRequest (degradedWorld 0)).globals
    demoRequest (healthyWorld (120 * Second)) (Or.inr (by decide))).elim
    (fun snap hs => ⟨snap, hs.1, by rw [hs.2.1]; decide, by rw [hs.2.1]; decide, hs.2.2.2.2.2.1⟩)

/-- C6: in a recompute, the "lbrynet" group lists exactly the router's nodes,
in the router's order, each with its address, status "ok" and an empty
`Error`; replacing the probe outcomes by any others leaves the group as it is,
and the router is the same after the call as before. -/
theorem lbrynet_group_mirrors_router (g : Globals) (req : Request) (world : World)
    (h : cacheHit g world = false) :
    ∃ snap, (GetStatus g req world).w.body = [snap] ∧
      snap.services.lbrynet =
        req.sdkrouter.servers.map
          (fun s => { Address := s.Address, Status := StatusOK, Error := "" }) ∧
      (∀ httpGet2 : Nat → ProbeOutcome,
        (GetStatus g req { world with httpGet := httpGet2 }).w.body.map
          (fun s => s.services.lbrynet) = [snap.services.lbrynet]) ∧
      (GetStatus g req world).router = req.sdkrouter ∧
      (GetStatus g req world).router.GetAll.1 = req.sdkrouter.GetAll.1 := by
  have hr : (GetStatus g req world).router = req.sdkrouter := by
    rw [GetStatus_miss g req world h, recompute_eq]
  refine ⟨freshSnapshot g req world, GetStatus_miss_body g req world h, rfl, ?_, hr, ?_⟩
  · intro httpGet2
    have h2 : cacheHit g { world with httpGet := httpGet2 } = false := h
    rw [GetStatus_miss_body g req _ h2]
    rfl
  · rw [hr]

theorem lbrynet_group_mirrors_router_witness :
    ∃ snap, (GetStatus Globals.init demoRequest (degradedWorld 5)).w.body = [snap] ∧
      snap.services.lbrynet =
        [ { Address := "http://sdk1:5279", Status := "ok", Error := "" },
          { Address := "http://sdk2:5279", Status := "ok", Error := "" } ] :=
  (lbrynet_group_mirrors_router Globals.init demoRequest (degradedWorld 5) (by decide)).elim
    (fun snap hs => ⟨snap, hs.1, hs.2.1⟩)

end Status

namespace Status

/-- C7: in a recompute, the "player" group has one observation per configured
media server, in the configured order and with the configured address; the
`i`-th observation is determined by the `i`-th server and the outcome of the
`i`-th probe alone, so another recompute whose `i`-th probe has the same
outcome reports the same `i`-th observation whatever the other probes did; and
a recompute with the same node list and the same probe outcomes yields the same
groups in the same order. -/
theorem player_group_pointwise (g : Globals) (req : Request) (world : World)
    (h : cacheHit g world = false) :
    ∃ snap, (GetStatus g req world).w.body = [snap] ∧
      snap.services.player.length = g.PlayerServers.length ∧
      snap.services.player.map (fun o => o.Address) = g.PlayerServers ∧
      (∀ i ps, g.PlayerServers[i]? = some ps →
        snap.services.player[i]? = some (probeItem ps (world.httpGet i))) ∧
      (∀ (req2 : Request) (world2 : World) (i : Nat), cacheHit g world2 = false →
        world2.httpGet i = world.httpGet i →
        (GetStatus g req2 world2).w.body.map (fun s => s.services.player[i]?) =
          [snap.services.player[i]?]) ∧
      (∀ (req2 : Request) (world2 : World), cacheHit g world2 = false →
        req2.sdkrouter.servers = req.sdkrouter.servers →
        (∀ i, i < g.PlayerServers.length → world2.httpGet i = world.httpGet i) →
        (GetStatus g req2 world2).w.body.map (fun s => s.services) = [snap.services]) := by
  refine ⟨freshSnapshot g req world, GetStatus_miss_body g req world h, ?_, ?_, ?_, ?_, ?_⟩
  · simp [freshSnapshot, observations_length]
  · simp [freshSnapshot, observations_address]
  · intro i ps hi
    simp [freshSnapshot, observations_getElem?, hi]
  · intro req2 world2 i h2 hi
    rw [GetStatus_miss_body g req2 world2 h2]
    simp [freshSnapshot, observations_getElem?, hi]
  · intro req2 world2 h2 hs hp
    rw [GetStatus_miss_body g req2 world2 h2]
    have hobs : observations world2.httpGet g.PlayerServers 0 =
        observations world.httpGet g.PlayerServers 0 :=
      observations_congr world.httpGet world2.httpGet g.PlayerServers 0
        (fun k hk => by simpa using hp k hk)
    simp [freshSnapshot, hs, hobs]

theorem player_group_pointwise_witness :
    ∃ snap, (GetStatus Globals.init demoRequest (degradedWorld 5)).w.body = [snap] ∧
      snap.services.player.map (fun o => o.Address) = PlayerServers ∧
      (GetStatus Globals.init demoRequest (healthyWorld 9)).w.body.map
        (fun s => s.services.player[2]?) = [snap.services.player[2]?] :=
  (player_group_pointwise Globals.init demoRequest (degradedWorld 5) (by decide)).elim
    (fun snap hs =>
      ⟨snap, hs.1, hs.2.2.1,
        hs.2.2.2.2.1 demoRequest (healthyWorld 9) 2 (by decide) (by decide)⟩)

/-! ## The freshness test as written -/

/-- C10: `GetStatus` answers from the cache exactly when a snapshot is cached
and `lastUpdate` is strictly later than the request time plus 120 seconds (then
it probes nothing and leaves the package variables alone); in every other
state it runs the recompute branch, probing every configured media server and
replacing the cache slot and `lastUpdate`. In particular it does so whenever
the request time is not earlier than `lastUpdate`. -/
theorem cache_served_only_when_lastUpdate_after_window (g : Globals) (req : Request)
    (world : World) :
    (((∃ cached, g.cachedResponse = some cached) ∧
        world.nowCheck + 120 * Second < g.lastUpdate) →
      (GetStatus g req world).w.body = g.cachedResponse.toList ∧
      (GetStatus g req world).probed = [] ∧
      (GetStatus g req world).globals = g) ∧
    (¬ ((∃ cached, g.cachedResponse = some cached) ∧
        world.nowCheck + 120 * Second < g.lastUpdate) →
      GetStatus g req world = recompute g req world ∧
      (GetStatus g req world).probed = g.PlayerServers ∧
      (GetStatus g req world).w.body.map some =
        [(GetStatus g req world).globals.cachedResponse] ∧
      (GetStatus g req world).w.body.map (fun s => s.timestamp) =
        [world.utcString world.nowStamp] ∧
      (GetStatus g req world).globals.lastUpdate = world.nowEnd) ∧
    (g.lastUpdate ≤ world.nowCheck →
      GetStatus g req world = recompute g req world ∧
      (GetStatus g req world).probed = g.PlayerServers ∧
      (GetStatus g req world).w.body.map some =
        [(GetStatus g req world).globals.cachedResponse] ∧
      (GetStatus g req world).w.body.map (fun s => s.timestamp) =
        [world.utcString world.nowStamp] ∧
      (GetStatus g req world).globals.lastUpdate = world.nowEnd) := by
  have hrec : cacheHit g world = false →
      GetStatus g req world = recompute g req world ∧
      (GetStatus g req world).probed = g.PlayerServers ∧
      (GetStatus g req world).w.body.map some =
        [(GetStatus g req world).globals.cachedResponse] ∧
      (GetStatus g req world).w.body.map (fun s => s.timestamp) =
        [world.utcString world.nowStamp] ∧
      (GetStatus g req world).globals.lastUpdate = world.nowEnd := by
    intro hmiss
    refine ⟨GetStatus_miss g req world hmiss, ?_, ?_, ?_, ?_⟩
    · rw [GetStatus_miss g req world hmiss, recompute_eq]
    · rw [GetStatus_miss g req world hmiss, recompute_eq, writeStatus_eq]
      rfl
    · rw [GetStatus_miss_body g req world hmiss]
      rfl
    · rw [GetStatus_miss g req world hmiss, recompute_eq]
  refine ⟨?_, ?_, ?_⟩
  · intro hc
    obtain ⟨cached, hcached, heq⟩ := GetStatus_hit g req world ((cacheHit_true_iff g world).2 hc)
    rw [heq, hcached, writeStatus_eq]
    exact ⟨rfl, rfl, rfl⟩
  · intro hc
    apply hrec
    cases hh : cacheHit g world with
    | false => rfl
    | true => exact absurd ((cacheHit_true_iff g world).1 hh) hc
  · intro hle
    apply hrec
    apply cacheHit_false_of_le
    have hv : (0 : Int) ≤ statusCacheValidity := by decide
    have h1 : (g.lastUpdate : Int) ≤ (world.nowCheck : Int) := hle
    show (g.lastUpdate : Int) ≤ (world.nowCheck : Int) + statusCacheValidity
    linarith

theorem cache_served_only_when_lastUpdate_after_window_witness :
    (GetStatus (GetStatus Globals.init demoRequest (healthyWorld 7)).globals demoRequest
      (healthyWorld 8)).probed = PlayerServers ∧
    (GetStatus (GetStatus Globals.init demoRequest (healthyWorld 7)).globals demoRequest
      (healthyWorld 8)).globals.lastUpdate = 8 :=
  ⟨((cache_served_only_when_lastUpdate_after_window
      (GetStatus Globals.init demoRequest (healthyWorld 7)).globals demoRequest
      (healthyWorld 8)).2.2 (by decide)).2.1,
   ((cache_served_only_when_lastUpdate_after_window
      (GetStatus Globals.init demoRequest (healthyWorld 7)).globals demoRequest
      (healthyWorld 8)).2.2 (by decide)).2.2.2.2⟩

end Status

namespace Status

/-! ## The status line over runs -/

theorem status_agrees_of_miss (g : Globals) (req : Request) (world : World)
    (h : cacheHit g world = false) :
    ∃ snap, (GetStatus g req world).w.body = [snap] ∧
      ((GetStatus g req world).w.status = some 200 ↔ snap.general_state = "ok") ∧
      ((GetStatus g req world).w.status = some 503 ↔ snap.general_state = "failing") := by
  refine ⟨freshSnapshot g req world, GetStatus_miss_body g req world h, ?_, ?_⟩ <;>
    rw [GetStatus_miss g req world h, recompute_eq, writeStatus_eq] <;>
    cases hb : anyBad world.httpGet g.PlayerServers 0 <;>
    simp [freshSnapshot, hb, httpStatusOK, httpStatusServiceUnavailable, StatusOK, StatusFailing]

theorem cacheHit_false_of_not_later (g : Globals) (world : World) (t : Time)
    (hinv : g.cachedResponse = none ∨ g.lastUpdate ≤ t) (ht : t ≤ world.nowCheck) :
    cacheHit g world = false := by
  rcases hinv with h | h
  · exact cacheHit_false_of_none g world h
  · apply cacheHit_false_of_le
    have hv : (0 : Int) ≤ statusCacheValidity := by decide
    have h1 : (g.lastUpdate : Int) ≤ (t : Int) := h
    have h2 : (t : Int) ≤ (world.nowCheck : Int) := ht
    show (g.lastUpdate : Int) ≤ (world.nowCheck : Int) + statusCacheValidity
    linarith

theorem serveAll_miss (req : Request) (world : World) (calls : List (Request × World)) :
    ∀ (g : Globals) (t : Time), (g.cachedResponse = none ∨ g.lastUpdate ≤ t) →
      clockOrdered t (calls ++ [(req, world)]) = true →
      cacheHit (serveAll g calls) world = false := by
  induction calls with
  | nil =>
    intro g t hinv hclock
    simp only [List.nil_append, clockOrdered, Bool.and_eq_true, decide_eq_true_eq] at hclock
    exact cacheHit_false_of_not_later g world t hinv hclock.1.1.1
  | cons call rest ih =>
    intro g t hinv hclock
    obtain ⟨r, w⟩ := call
    simp only [List.cons_append, clockOrdered, Bool.and_eq_true, decide_eq_true_eq] at hclock
    have hmiss : cacheHit g w = false := cacheHit_false_of_not_later g w t hinv hclock.1.1.1
    have hlast : (GetStatus g r w).globals.lastUpdate = w.nowEnd := by
      rw [GetStatus_miss g r w hmiss, recompute_eq]
    exact ih (GetStatus g r w).globals w.nowEnd (Or.inr (le_of_eq hlast)) hclock.2

/-- C1: in every run in which the clock never runs backwards, started from
any package state whose cache slot is empty (as at start-up) or whose
`lastUpdate` is not later than the clock, every response of `GetStatus`, after
any number of earlier requests with any node lists and probe outcomes, has one
body, and its status code is 200 exactly when the body's `general_state` is
"ok" and 503 exactly when it is "failing". -/
theorem status_code_matches_general_state (g0 : Globals) (t0 : Time)
    (calls : List (Request × World)) (req : Request) (world : World)
    (hstart : g0.cachedResponse = none ∨ g0.lastUpdate ≤ t0)
    (hclock : clockOrdered t0 (calls ++ [(req, world)]) = true) :
    ∃ snap, (GetStatus (serveAll g0 calls) req world).w.body = [snap] ∧
      ((GetStatus (serveAll g0 calls) req world).w.status = some 200 ↔
        snap.general_state = "ok") ∧
      ((GetStatus (serveAll g0 calls) req world).w.status = some 503 ↔
        snap.general_state = "failing") :=
  status_agrees_of_miss (serveAll g0 calls) req world
    (serveAll_miss req world calls g0 t0 hstart hclock)

theorem status_code_matches_general_state_witness :
    ∃ snap,
      (GetStatus (serveAll Globals.init
        [(demoRequest, degradedWorld 3), (demoRequest, healthyWorld (10 * Second))])
        demoRequest (degradedWorld (20 * Second))).w.body = [snap] ∧
      ((GetStatus (serveAll Globals.init
        [(demoRequest, degradedWorld 3), (demoRequest, healthyWorld (10 * Second))])
        demoRequest (degradedWorld (20 * Second))).w.status = some 200 ↔
        snap.general_state = "ok") ∧
      ((GetStatus (serveAll Globals.init
        [(demoRequest, degradedWorld 3), (demoRequest, healthyWorld (10 * Second))])
        demoRequest (degradedWorld (20 * Second))).w.status = some 503 ↔
        snap.general_state = "failing") :=
  status_code_matches_general_state Globals.init 0
    [(demoRequest, degradedWorld 3), (demoRequest, healthyWorld (10 * Second))]
    demoRequest (degradedWorld (20 * Second)) (Or.inl rfl) (by decide)

end Status

namespace Status

/-! ## WhoAMI -/

/-- C8: `WhoAMI` writes one body whose "X-Forwarded-For" and "X-Real-Ip"
entries are the request's header values of those names (the first value the
request carries under the name, the empty string when it carries none) and
whose "ip" entry is the request's remote address; the status is 200; the
response is the same whatever the package variables hold, and the package
variables (cache slot and `lastUpdate` included) are left as they were. -/
theorem WhoAMI_echoes_request (g : Globals) (req : Request) :
    (∃ details, (WhoAMI g req).w.body = [details] ∧
      details.lookup "ip" = some req.RemoteAddr ∧
      details.lookup "X-Forwarded-For" = some (req.Header.Get "X-Forwarded-For") ∧
      details.lookup "X-Real-Ip" = some (req.Header.Get "X-Real-Ip") ∧
      details.map Prod.fst = ["ip", "X-Forwarded-For", "X-Real-Ip"] ∧
      (∀ v vs, req.Header.lookup "X-Forwarded-For" = some (v :: vs) →
        details.lookup "X-Forwarded-For" = some v) ∧
      (∀ v vs, req.Header.lookup "X-Real-Ip" = some (v :: vs) →
        details.lookup "X-Real-Ip" = some v) ∧
      (req.Header.lookup "X-Forwarded-For" = none ∨
          req.Header.lookup "X-Forwarded-For" = some [] →
        details.lookup "X-Forwarded-For" = some "") ∧
      (req.Header.lookup "X-Real-Ip" = none ∨ req.Header.lookup "X-Real-Ip" = some [] →
        details.lookup "X-Real-Ip" = some "")) ∧
    (WhoAMI g req).w.status = some 200 ∧
    (∀ g2 : Globals, (WhoAMI g2 req).w.body = (WhoAMI g req).w.body ∧
      (WhoAMI g2 req).w.status = (WhoAMI g req).w.status ∧
      (WhoAMI g2 req).w.header = (WhoAMI g req).w.header) ∧
    (WhoAMI g req).globals = g ∧
    (WhoAMI g req).globals.cachedResponse = g.cachedResponse ∧
    (WhoAMI g req).globals.lastUpdate = g.lastUpdate := by
  have hf : CanonicalMIMEHeaderKey "X-Forwarded-For" = "X-Forwarded-For" := by decide
  have hr : CanonicalMIMEHeaderKey "X-Real-Ip" = "X-Real-Ip" := by decide
  refine ⟨⟨_, rfl, ?_, ?_, ?_, rfl, ?_, ?_, ?_, ?_⟩, rfl, fun g2 => ⟨rfl, rfl, rfl⟩, rfl, rfl,
    rfl⟩
  · simp [List.lookup]
  · simp [List.lookup]
  · simp [List.lookup]
  · intro v vs h
    simp [List.lookup, Header.Get, hf, h]
  · intro v vs h
    simp [List.lookup, Header.Get, hr, h]
  · rintro (h | h) <;> simp [List.lookup, Header.Get, hf, h]
  · rintro (h | h) <;> simp [List.lookup, Header.Get, hr, h]

theorem WhoAMI_echoes_request_witness :
    ∃ details, (WhoAMI Globals.init demoRequest).w.body = [details] ∧
      details.lookup "ip" = some "10.0.0.7:4431" ∧
      details.lookup "X-Forwarded-For" = some "1.2.3.4" ∧
      details.lookup "X-Real-Ip" = some "" :=
  (WhoAMI_echoes_request Globals.init demoRequest).1.elim
    (fun details hd =>
      ⟨details, hd.1, hd.2.1, hd.2.2.2.2.2.1 "1.2.3.4" ["5.6.7.8"] (by decide),
        hd.2.2.2.2.2.2.2.2 (Or.inl (by decide))⟩)

end Status

namespace Proxy

/-! ## The error envelope -/

/-- C9: for every underlying error and each of `NewError`, `NewInternalError`,
`NewInputError`, `NewMethodError` and `NewParamsError`, `AsRPCResponse()` is an
envelope with `jsonrpc` "2.0", the underlying error's message (the value's own
`Error()`) and the value's own `Code()`, which is -32603, -32603, -32700,
-32601 and -32602 respectively; for `NewInputError` the shadowing `Code()`
agrees with the code stored in the embedded `GenericError`. -/
theorem AsRPCResponse_envelope (err : GoError) :
    ((NewError err).AsRPCResponse =
        { JSONRPC := "2.0", Error := some { Code := -32603, Message := err.Error } } ∧
      (NewError err).Code = -32603 ∧ (NewError err).Error = err.Error) ∧
    ((NewInternalError err).AsRPCResponse =
        { JSONRPC := "2.0", Error := some { Code := -32603, Message := err.Error } } ∧
      (NewInternalError err).Code = -32603 ∧ (NewInternalError err).Error = err.Error) ∧
    ((NewInputError err).AsRPCResponse =
        { JSONRPC := "2.0", Error := some { Code := -32700, Message := err.Error } } ∧
      (NewInputError err).Code = -32700 ∧ (NewInputError err).Error = err.Error ∧
      (NewInputError err).Code = (NewInputError err).toGenericError.Code) ∧
    ((NewMethodError err).AsRPCResponse =
        { JSONRPC := "2.0", Error := some { Code := -32601, Message := err.Error } } ∧
      (NewMethodError err).Code = -32601 ∧ (NewMethodError err).Error = err.Error) ∧
    ((NewParamsError err).AsRPCResponse =
        { JSONRPC := "2.0", Error := some { Code := -32602, Message := err.Error } } ∧
      (NewParamsError err).Code = -32602 ∧ (NewParamsError err).Error = err.Error) :=
  ⟨⟨rfl, rfl, rfl⟩, ⟨rfl, rfl, rfl⟩, ⟨rfl, rfl, rfl, rfl⟩, ⟨rfl, rfl, rfl⟩, ⟨rfl, rfl, rfl⟩⟩

end Proxy
